import Mathlib

/-!
Shallow embedding of the concurrent link-accessibility validator of the
web-analyzer repository (package `analyzer`, files `network.go` and the
worker-pool revision of the same file), together with theorems settling
the specification claims about it.

Modelling conventions:
* Durations are natural numbers of milliseconds (`initialBackoff = 1000`
  stands for Go's `1 * time.Second`).
* The network environment seen by one URL is a `UrlEnv`: whether
  `http.NewRequestWithContext` succeeds for that URL (`reqOk`, determined
  by the URL string alone, hence constant across attempts), and the
  outcome `client.Do` delivers on each attempt (indexed from 0).
* An already-cancelled `context.Context` makes `client.Do` return a
  non-nil error at once without network I/O; it is therefore represented
  by an environment whose every attempt is a `transportError`.  Go's
  `time.Sleep` takes no context and always runs to completion, which the
  trace semantics reflects by emitting unconditional `sleep` events.
* A probe is embedded twice, in lockstep: `linkAccessibilityChecker`
  yields the observable event trace (attempt starts, sleeps, sends into
  the failure channel) and `probeResult` the final verdict.
-/

namespace WebAnalyzer

/-- `maxRetries` constant of network.go. -/
def maxRetries : Nat := 3

/-- `initialBackoff` constant of network.go (milliseconds; Go: `1 * time.Second`). -/
def initialBackoff : Nat := 1000

/-- `numWorkers` constant of the worker-pool revision of network.go. -/
def numWorkers : Nat := 10

/-- Outcome of one `client.Do` (or `http.Get`) call:
either a non-nil error (`transportError`) or a response carrying a status code. -/
inductive HttpOutcome where
  | transportError
  | response (statusCode : Nat)
deriving DecidableEq

/-- The network environment one URL experiences: whether request construction
succeeds for this URL, and the outcome of each attempt (0-indexed). -/
structure UrlEnv where
  reqOk : Bool
  outcome : Nat → HttpOutcome

/-- Observable events of one probe run: the start of attempt `n` (1-indexed,
as logged by the Go code), a `time.Sleep` of the given backoff duration, and
a send of the probed URL into the `inaccessibleLinks` channel. -/
inductive ProbeEvent where
  | attempt (n : Nat)
  | sleep (ms : Nat)
  | send
deriving DecidableEq

/-- Final verdict of a probe, per the spec's data model. -/
inductive ProbeResult where
  | Accessible
  | Inaccessible
deriving DecidableEq

/-- Whether attempt `i` of environment `env` fails for retry purposes:
a transport error, or a response whose status is outside [200, 300)
(network.go: `resp.StatusCode >= 200 && resp.StatusCode < 300` is success). -/
def attemptFails (env : UrlEnv) (i : Nat) : Bool :=
  match env.outcome i with
  | HttpOutcome.transportError => true
  | HttpOutcome.response s => ! decide (200 ≤ s ∧ s < 300)

/-- The retry loop of `linkAccessibilityChecker` (network.go lines 84-127),
as an event-trace semantics.  `fuel` is the number of loop iterations left
(`maxRetries - i`), `i` the 0-based loop counter, `backoff` the current
backoff duration.  Falling out of the loop sends the URL into the failure
channel; a request-construction failure sends it and returns at once; a
transport error or a non-2xx response sleeps the current backoff (Go's
`time.Sleep(backoff)`, unconditional, even on the last iteration), doubles
it, and retries; a 2xx response returns with no send. -/
def checkerLoop (env : UrlEnv) : Nat → Nat → Nat → List ProbeEvent
  | 0, _, _ => [ProbeEvent.send]
  | Nat.succ fuel, i, backoff =>
    if env.reqOk = false then
      [ProbeEvent.attempt (i + 1), ProbeEvent.send]
    else
      match env.outcome i with
      | HttpOutcome.transportError =>
          ProbeEvent.attempt (i + 1) :: ProbeEvent.sleep backoff ::
            checkerLoop env fuel (i + 1) (backoff * 2)
      | HttpOutcome.response s =>
          if 200 ≤ s ∧ s < 300 then
            [ProbeEvent.attempt (i + 1)]
          else
            ProbeEvent.attempt (i + 1) :: ProbeEvent.sleep backoff ::
              checkerLoop env fuel (i + 1) (backoff * 2)

/-- Event trace of `linkAccessibilityChecker` for one URL:
the loop starts at attempt 0 with `backoff = initialBackoff`. -/
def linkAccessibilityChecker (env : UrlEnv) : List ProbeEvent :=
  checkerLoop env maxRetries 0 initialBackoff

/-- The same retry loop, reduced to its final verdict. -/
def probeLoop (env : UrlEnv) : Nat → Nat → ProbeResult
  | 0, _ => ProbeResult.Inaccessible
  | Nat.succ fuel, i =>
    if env.reqOk = false then ProbeResult.Inaccessible
    else
      match env.outcome i with
      | HttpOutcome.transportError => probeLoop env fuel (i + 1)
      | HttpOutcome.response s =>
          if 200 ≤ s ∧ s < 300 then ProbeResult.Accessible
          else probeLoop env fuel (i + 1)

/-- Final verdict of one probe. -/
def probeResult (env : UrlEnv) : ProbeResult := probeLoop env maxRetries 0

def isAttempt : ProbeEvent → Bool
  | ProbeEvent.attempt _ => true
  | _ => false

def isSend : ProbeEvent → Bool
  | ProbeEvent.send => true
  | _ => false

def isSleep : ProbeEvent → Bool
  | ProbeEvent.sleep _ => true
  | _ => false

/-- Number of attempts started in a trace. -/
def attemptCount (t : List ProbeEvent) : Nat := (t.filter isAttempt).length

/-- Number of sends into the failure channel in a trace. -/
def sendCount (t : List ProbeEvent) : Nat := (t.filter isSend).length

/-- Number of `time.Sleep` calls in a trace. -/
def sleepCount (t : List ProbeEvent) : Nat := (t.filter isSleep).length

theorem checkerLoop_step_reqFail (env : UrlEnv) (fuel i backoff : Nat)
    (hreq : env.reqOk = false) :
    checkerLoop env (fuel + 1) i backoff =
      [ProbeEvent.attempt (i + 1), ProbeEvent.send] := by
  simp [checkerLoop, hreq]

theorem checkerLoop_step_fail (env : UrlEnv) (fuel i backoff : Nat)
    (hreq : env.reqOk = true) (hf : attemptFails env i = true) :
    checkerLoop env (fuel + 1) i backoff =
      ProbeEvent.attempt (i + 1) :: ProbeEvent.sleep backoff ::
        checkerLoop env fuel (i + 1) (backoff * 2) := by
  cases hout : env.outcome i with
  | transportError => simp [checkerLoop, hreq, hout]
  | response s =>
      have hs : ¬(200 ≤ s ∧ s < 300) := by
        have := hf
        simp [attemptFails, hout] at this
        omega
      simp [checkerLoop, hreq, hout, hs]

theorem checkerLoop_step_success (env : UrlEnv) (fuel i backoff s : Nat)
    (hreq : env.reqOk = true) (hout : env.outcome i = HttpOutcome.response s)
    (hs : 200 ≤ s ∧ s < 300) :
    checkerLoop env (fuel + 1) i backoff = [ProbeEvent.attempt (i + 1)] := by
  simp [checkerLoop, hreq, hout, hs]

theorem probeLoop_step_fail (env : UrlEnv) (fuel i : Nat)
    (hreq : env.reqOk = true) (hf : attemptFails env i = true) :
    probeLoop env (fuel + 1) i = probeLoop env fuel (i + 1) := by
  cases hout : env.outcome i with
  | transportError => simp [probeLoop, hreq, hout]
  | response s =>
      have hs : ¬(200 ≤ s ∧ s < 300) := by
        have := hf
        simp [attemptFails, hout] at this
        omega
      simp [probeLoop, hreq, hout, hs]

/-- A probe whose every attempt fails (request construction succeeding)
produces exactly the trace: attempt 1, sleep 1000 ms, attempt 2, sleep
2000 ms, attempt 3, sleep 4000 ms, send. -/
theorem checker_allFail_trace (env : UrlEnv) (hreq : env.reqOk = true)
    (h : ∀ i, i < maxRetries → attemptFails env i = true) :
    linkAccessibilityChecker env =
      [ProbeEvent.attempt 1, ProbeEvent.sleep 1000, ProbeEvent.attempt 2,
       ProbeEvent.sleep 2000, ProbeEvent.attempt 3, ProbeEvent.sleep 4000,
       ProbeEvent.send] := by
  have h0 := h 0 (by decide)
  have h1 := h 1 (by decide)
  have h2 := h 2 (by decide)
  show checkerLoop env 3 0 1000 = _
  rw [checkerLoop_step_fail env 2 0 1000 hreq h0,
      checkerLoop_step_fail env 1 1 (1000 * 2) hreq h1,
      checkerLoop_step_fail env 0 2 (1000 * 2 * 2) hreq h2]
  rfl

theorem probe_allFail (env : UrlEnv) (hreq : env.reqOk = true)
    (h : ∀ i, i < maxRetries → attemptFails env i = true) :
    probeResult env = ProbeResult.Inaccessible := by
  have h0 := h 0 (by decide)
  have h1 := h 1 (by decide)
  have h2 := h 2 (by decide)
  show probeLoop env 3 0 = _
  rw [probeLoop_step_fail env 2 0 hreq h0,
      probeLoop_step_fail env 1 1 hreq h1,
      probeLoop_step_fail env 0 2 hreq h2]
  rfl

/-- `LinkAnalysis` of the analyzer package: internal and external link lists
extracted from the page. -/
structure LinkAnalysis where
  InternalLinks : List String
  ExternalLinks : List String

/-- The combined link sequence of `validateLinkAccessibility`:
`pageLinks := append(analysis.InternalLinks, analysis.ExternalLinks...)`. -/
def pageLinks (analysis : LinkAnalysis) : List String :=
  analysis.InternalLinks ++ analysis.ExternalLinks

/-- Capacity of the failure channel:
`inaccessibleLinks := make(chan string, totalLinks)` in both revisions. -/
def inaccessibleChanCapacity (analysis : LinkAnalysis) : Nat :=
  (pageLinks analysis).length

/-- Contents of the `inaccessibleLinks` channel after all probes have run and
the channel has been closed (after the `wg.Wait()` join): each link's probe
contributes one copy of its URL per `send` event of its trace.  The order
chosen here is the per-link dispatch order, one valid linearization of the
nondeterministic arrival order. -/
def channelContents (envOf : String → UrlEnv) (links : List String) : List String :=
  links.flatMap fun url =>
    List.replicate (sendCount (linkAccessibilityChecker (envOf url))) url

/-- `validateLinkAccessibility` (both revisions): on an empty combined link
sequence it returns `(nil, nil)` at once; otherwise it joins all probes and
drains the failure channel, returning the drained list and a nil error. -/
def validateLinkAccessibility (envOf : String → UrlEnv) (analysis : LinkAnalysis) :
    List String × Option String :=
  if (pageLinks analysis).isEmpty then ([], none)
  else (channelContents envOf (pageLinks analysis), none)

/-- Number of goroutines the network.go revision of `validateLinkAccessibility`
spawns: one `linkAccessibilityChecker` goroutine per link (lines 144-147),
none when the link list is empty (early return at line 133). -/
def goroutinesSpawned (analysis : LinkAnalysis) : Nat :=
  if (pageLinks analysis).isEmpty then 0 else (pageLinks analysis).length

/-- Number of workers the worker-pool revision spawns:
`if totalLinks < numWorkers` it starts `totalLinks` workers, else
`numWorkers` workers; none when the link list is empty. -/
def workersSpawnedPool (analysis : LinkAnalysis) : Nat :=
  if (pageLinks analysis).isEmpty then 0
  else if (pageLinks analysis).length < numWorkers then (pageLinks analysis).length
  else numWorkers

/-- Errors `loadWebPage` can return: a transport error propagated from the
final `http.Get`, or the worker-pool revision's explicit
`fmt.Errorf("access denied to the page %v", data)`. -/
inductive FetchError where
  | transport
  | accessDenied
deriving DecidableEq

/-- The retry loop of `loadWebPage` in network.go (lines 29-75).  The
accumulator `last` is the pair of mutable variables `data, err` as left by
the most recent `http.Get`.  A 2xx response returns `(data, nil)`; when the
loop exhausts its attempts the function returns `(nil, err)` — in
particular `(nil, nil)` when the last attempt yielded a response (so
`err == nil`) with a non-2xx status. -/
def loadWebPageLoop (env : Nat → HttpOutcome) :
    Nat → Nat → Option HttpOutcome → Option Nat × Option FetchError
  | 0, _, last =>
    match last with
    | some HttpOutcome.transportError => (none, some FetchError.transport)
    | _ => (none, none)
  | Nat.succ fuel, i, _ =>
    match env i with
    | HttpOutcome.transportError =>
        loadWebPageLoop env fuel (i + 1) (some HttpOutcome.transportError)
    | HttpOutcome.response s =>
        if 200 ≤ s ∧ s < 300 then (some s, none)
        else loadWebPageLoop env fuel (i + 1) (some (HttpOutcome.response s))

/-- `loadWebPage` of network.go: the result is the status code of the
successful response (`some s`) or `none`, paired with the returned error. -/
def loadWebPage (env : Nat → HttpOutcome) : Option Nat × Option FetchError :=
  loadWebPageLoop env maxRetries 0 none

/-- The retry loop of `loadWebPage` in the worker-pool revision: identical
except that after the loop it checks `data != nil && err == nil` and, if so,
returns the access-denied error instead of `(nil, nil)`. -/
def loadWebPagePoolLoop (env : Nat → HttpOutcome) :
    Nat → Nat → Option HttpOutcome → Option Nat × Option FetchError
  | 0, _, last =>
    match last with
    | some HttpOutcome.transportError => (none, some FetchError.transport)
    | some (HttpOutcome.response _) => (none, some FetchError.accessDenied)
    | none => (none, none)
  | Nat.succ fuel, i, _ =>
    match env i with
    | HttpOutcome.transportError =>
        loadWebPagePoolLoop env fuel (i + 1) (some HttpOutcome.transportError)
    | HttpOutcome.response s =>
        if 200 ≤ s ∧ s < 300 then (some s, none)
        else loadWebPagePoolLoop env fuel (i + 1) (some (HttpOutcome.response s))

/-- `loadWebPage` of the worker-pool revision. -/
def loadWebPagePool (env : Nat → HttpOutcome) : Option Nat × Option FetchError :=
  loadWebPagePoolLoop env maxRetries 0 none

/-- Each probe sends its URL into the failure channel at most once:
a trace contains zero or one `send` events. -/
theorem sendCount_checkerLoop_le_one (env : UrlEnv) (fuel i backoff : Nat) :
    sendCount (checkerLoop env fuel i backoff) ≤ 1 := by
  induction fuel generalizing i backoff with
  | zero => simp [checkerLoop, sendCount, isSend]
  | succ n ih =>
      cases hreq : env.reqOk with
      | false => simp [checkerLoop, hreq, sendCount, isSend]
      | true =>
          cases hout : env.outcome i with
          | transportError =>
              simpa [checkerLoop, hreq, hout, sendCount, isSend] using ih (i + 1) (backoff * 2)
          | response s =>
              by_cases hs : 200 ≤ s ∧ s < 300
              · simp [checkerLoop, hreq, hout, hs, sendCount, isSend]
              · simpa [checkerLoop, hreq, hout, hs, sendCount, isSend]
                  using ih (i + 1) (backoff * 2)

/-- The trace and verdict semantics agree: a probe sends its URL exactly
when its verdict is `Inaccessible`. -/
theorem sendCount_eq_verdict (env : UrlEnv) (fuel i backoff : Nat) :
    sendCount (checkerLoop env fuel i backoff) =
      (if probeLoop env fuel i = ProbeResult.Inaccessible then 1 else 0) := by
  induction fuel generalizing i backoff with
  | zero => simp [checkerLoop, probeLoop, sendCount, isSend]
  | succ n ih =>
      cases hreq : env.reqOk with
      | false => simp [checkerLoop, probeLoop, hreq, sendCount, isSend]
      | true =>
          cases hout : env.outcome i with
          | transportError =>
              simpa [checkerLoop, probeLoop, hreq, hout, sendCount, isSend]
                using ih (i + 1) (backoff * 2)
          | response s =>
              by_cases hs : 200 ≤ s ∧ s < 300
              · simp [checkerLoop, probeLoop, hreq, hout, hs, sendCount, isSend]
              · simpa [checkerLoop, probeLoop, hreq, hout, hs, sendCount, isSend]
                  using ih (i + 1) (backoff * 2)

/-- The drained channel contents are exactly the links whose probe verdict
is `Inaccessible`, in dispatch order. -/
theorem channelContents_eq_filter (envOf : String → UrlEnv) (links : List String) :
    channelContents envOf links =
      links.filter fun url =>
        decide (probeResult (envOf url) = ProbeResult.Inaccessible) := by
  induction links with
  | nil => simp [channelContents]
  | cons u ls ih =>
      have h := sendCount_eq_verdict (envOf u) maxRetries 0 initialBackoff
      by_cases hv : probeResult (envOf u) = ProbeResult.Inaccessible
      · have hv2 : probeLoop (envOf u) maxRetries 0 = ProbeResult.Inaccessible := hv
        have h1 : sendCount (linkAccessibilityChecker (envOf u)) = 1 := by
          simpa [linkAccessibilityChecker, hv2] using h
        simp [channelContents, List.filter_cons, hv, h1] at ih ⊢
        simpa [List.replicate] using ih
      · have hv2 : ¬ probeLoop (envOf u) maxRetries 0 = ProbeResult.Inaccessible := hv
        have h0 : sendCount (linkAccessibilityChecker (envOf u)) = 0 := by
          simpa [linkAccessibilityChecker, hv2] using h
        simp [channelContents, List.filter_cons, hv, h0] at ih ⊢
        exact ih

/-- A URL answering HTTP 200 on every attempt. -/
def alwaysOkEnv : UrlEnv :=
  { reqOk := true, outcome := fun _ => HttpOutcome.response 200 }

/-- A URL answering HTTP 500 on every attempt. -/
def alwaysServerErrorEnv : UrlEnv :=
  { reqOk := true, outcome := fun _ => HttpOutcome.response 500 }

/-- A URL whose every attempt ends in a transport error (connection refused). -/
def connectionRefusedEnv : UrlEnv :=
  { reqOk := true, outcome := fun _ => HttpOutcome.transportError }

/-- A URL for which `http.NewRequestWithContext` fails (malformed URL). -/
def malformedUrlEnv : UrlEnv :=
  { reqOk := false, outcome := fun _ => HttpOutcome.transportError }

/-- The environment a probe sees under an already-cancelled context:
request construction still succeeds (`http.NewRequestWithContext` does not
consult the context), and every `client.Do` call returns the context's
error immediately, i.e. a transport error on every attempt. -/
def cancelledCtxEnv : UrlEnv :=
  { reqOk := true, outcome := fun _ => HttpOutcome.transportError }

/-- A URL failing its first attempt with HTTP 500 and answering HTTP 200
from the second attempt on. -/
def failThenOkEnv : UrlEnv :=
  { reqOk := true,
    outcome := fun i => if i = 0 then HttpOutcome.response 500 else HttpOutcome.response 200 }

/-- The spec's aggregate-accuracy scenario:
link A always answers 200, link B always answers 500, link C refuses
connections. -/
def demoEnvOf (url : String) : UrlEnv :=
  if url = "http://a.example" then alwaysOkEnv
  else if url = "http://b.example" then alwaysServerErrorEnv
  else connectionRefusedEnv

/-- The LinkSet {A, B, C} of the aggregate-accuracy scenario. -/
def demoAnalysis : LinkAnalysis :=
  { InternalLinks := ["http://a.example"],
    ExternalLinks := ["http://b.example", "http://c.example"] }

/-- A LinkAnalysis with 11 links, one more than `numWorkers`. -/
def elevenLinkAnalysis : LinkAnalysis :=
  { InternalLinks := List.replicate 11 "http://x.example", ExternalLinks := [] }

/-- A probe starts at most `fuel` attempts in `fuel` loop iterations. -/
theorem attemptCount_checkerLoop_le (env : UrlEnv) (fuel i backoff : Nat) :
    attemptCount (checkerLoop env fuel i backoff) ≤ fuel := by
  induction fuel generalizing i backoff with
  | zero => simp [checkerLoop, attemptCount, isAttempt]
  | succ n ih =>
      cases hreq : env.reqOk with
      | false => simp [checkerLoop, hreq, attemptCount, isAttempt]
      | true =>
          cases hout : env.outcome i with
          | transportError =>
              have := ih (i + 1) (backoff * 2)
              simp [checkerLoop, hreq, hout, attemptCount, isAttempt] at this ⊢
              omega
          | response s =>
              by_cases hs : 200 ≤ s ∧ s < 300
              · simp [checkerLoop, hreq, hout, hs, attemptCount, isAttempt]
              · have := ih (i + 1) (backoff * 2)
                simp [checkerLoop, hreq, hout, hs, attemptCount, isAttempt] at this ⊢
                omega

/-- How many `send`s of `url` all the probes over `links` perform in total. -/
def sentCount (envOf : String → UrlEnv) (links : List String) (url : String) : Nat :=
  (links.map fun l =>
    if l = url then sendCount (linkAccessibilityChecker (envOf l)) else 0).sum

/-- Draining the failure channel loses and duplicates nothing: the drained
list contains each URL exactly as often as the probes sent it. -/
theorem count_channelContents (envOf : String → UrlEnv) (links : List String)
    (url : String) :
    (channelContents envOf links).count url = sentCount envOf links url := by
  induction links with
  | nil => simp [channelContents, sentCount]
  | cons u ls ih =>
      have hcons : channelContents envOf (u :: ls) =
          List.replicate (sendCount (linkAccessibilityChecker (envOf u))) u ++
            channelContents envOf ls := by
        simp [channelContents]
      rw [hcons, List.count_append, List.count_replicate, ih]
      by_cases hu : u = url
      · simp [sentCount, hu]
      · have : (u == url) = false := by simpa using hu
        simp [sentCount, hu, this]

/-- Claim C1: for every LinkSet, `validateLinkAccessibility` returns a nil
error and a FailureSet containing exactly those URLs whose probe ended
`Inaccessible` (stated order-independently, as multiset/count equality);
in particular for links {A: always-200, B: always-500, C: connection-refused}
the returned FailureSet is a permutation of {B, C} with a nil error. -/
theorem C1_aggregate_accuracy (envOf : String → UrlEnv) (analysis : LinkAnalysis) :
    (validateLinkAccessibility envOf analysis).2 = none ∧
    (∀ url, (validateLinkAccessibility envOf analysis).1.count url =
      ((pageLinks analysis).filter fun l =>
        decide (probeResult (envOf l) = ProbeResult.Inaccessible)).count url) ∧
    (validateLinkAccessibility demoEnvOf demoAnalysis).1.Perm
      ["http://b.example", "http://c.example"] ∧
    (validateLinkAccessibility demoEnvOf demoAnalysis).2 = none := by
  refine ⟨?_, ?_, by decide, by decide⟩
  · cases hl : pageLinks analysis with
    | nil => simp [validateLinkAccessibility, hl]
    | cons a as => simp [validateLinkAccessibility, hl]
  · intro url
    cases hl : pageLinks analysis with
    | nil => simp [validateLinkAccessibility, hl]
    | cons a as => simp [validateLinkAccessibility, hl, channelContents_eq_filter]

/-- Claim C2: a URL whose every attempt fails (transport error or non-2xx
status each time, request construction succeeding) is probed exactly
`maxRetries = 3` times — never more, never fewer — and sends its URL into
the failure channel exactly once. -/
theorem C2_retry_ceiling (env : UrlEnv) (hreq : env.reqOk = true)
    (hfail : ∀ i, i < maxRetries → attemptFails env i = true) :
    attemptCount (linkAccessibilityChecker env) = maxRetries ∧
    sendCount (linkAccessibilityChecker env) = 1 := by
  rw [checker_allFail_trace env hreq hfail]
  exact ⟨rfl, rfl⟩

/-- Witness for C2 at a URL answering HTTP 500 on every attempt. -/
theorem C2_retry_ceiling_witness :
    attemptCount (linkAccessibilityChecker alwaysServerErrorEnv) = maxRetries ∧
    sendCount (linkAccessibilityChecker alwaysServerErrorEnv) = 1 :=
  C2_retry_ceiling alwaysServerErrorEnv rfl (by decide)

/-- Counterexample to claim C3: the network.go revision of
`validateLinkAccessibility` spawns one checker goroutine per link, so a
LinkSet with 11 links gets 11 workers — more than the cap of 10 and not
`min(maxWorkers, N)`. -/
theorem C3_worker_cap_counterexample :
    goroutinesSpawned elevenLinkAnalysis = 11 ∧
    numWorkers < goroutinesSpawned elevenLinkAnalysis ∧
    ¬ goroutinesSpawned elevenLinkAnalysis =
        min numWorkers (pageLinks elevenLinkAnalysis).length := by decide

/-- Claim C3 as amended: for a non-empty LinkSet with N links, the
worker-pool revision spawns exactly `min(numWorkers, N)` workers with
`numWorkers = 10`, while the network.go revision spawns exactly N checker
goroutines, one per link, with no cap. -/
theorem C3_worker_counts (analysis : LinkAnalysis)
    (h : (pageLinks analysis).isEmpty = false) :
    workersSpawnedPool analysis = min numWorkers (pageLinks analysis).length ∧
    goroutinesSpawned analysis = (pageLinks analysis).length := by
  constructor
  · simp only [workersSpawnedPool, h]
    split
    · simp_all
    · split <;> omega
  · simp [goroutinesSpawned, h]

/-- Witness for the amended C3 at an 11-link LinkSet. -/
theorem C3_worker_counts_witness :
    workersSpawnedPool elevenLinkAnalysis =
      min numWorkers (pageLinks elevenLinkAnalysis).length ∧
    goroutinesSpawned elevenLinkAnalysis = (pageLinks elevenLinkAnalysis).length :=
  C3_worker_counts elevenLinkAnalysis (by decide)

/-- Counterexample to claim C4: under an already-cancelled context (every
`client.Do` fails immediately; `time.Sleep` is uninterruptible) the probe
does NOT return without sleeping and does NOT abandon its retries: it runs
all 3 attempts and sleeps the full 1s, 2s and 4s backoffs. -/
theorem C4_cancellation_counterexample :
    linkAccessibilityChecker cancelledCtxEnv =
      [ProbeEvent.attempt 1, ProbeEvent.sleep 1000, ProbeEvent.attempt 2,
       ProbeEvent.sleep 2000, ProbeEvent.attempt 3, ProbeEvent.sleep 4000,
       ProbeEvent.send] ∧
    sleepCount (linkAccessibilityChecker cancelledCtxEnv) = 3 ∧
    attemptCount (linkAccessibilityChecker cancelledCtxEnv) = 3 := by decide

/-- Claim C4 as amended: if the context is cancelled, each attempt fails
fast (`client.Do` returns an error), but the probe still sleeps every
uninterruptible backoff in full and completes all `maxRetries` attempts
before reporting `Inaccessible`. -/
theorem C4_cancelled_context_behavior (env : UrlEnv) (hreq : env.reqOk = true)
    (hcancel : ∀ i, i < maxRetries → env.outcome i = HttpOutcome.transportError) :
    linkAccessibilityChecker env =
      [ProbeEvent.attempt 1, ProbeEvent.sleep 1000, ProbeEvent.attempt 2,
       ProbeEvent.sleep 2000, ProbeEvent.attempt 3, ProbeEvent.sleep 4000,
       ProbeEvent.send] ∧
    probeResult env = ProbeResult.Inaccessible := by
  have hfail : ∀ i, i < maxRetries → attemptFails env i = true := by
    intro i hi
    simp [attemptFails, hcancel i hi]
  exact ⟨checker_allFail_trace env hreq hfail, probe_allFail env hreq hfail⟩

/-- Witness for the amended C4 at the cancelled-context environment. -/
theorem C4_cancelled_context_behavior_witness :
    linkAccessibilityChecker cancelledCtxEnv =
      [ProbeEvent.attempt 1, ProbeEvent.sleep 1000, ProbeEvent.attempt 2,
       ProbeEvent.sleep 2000, ProbeEvent.attempt 3, ProbeEvent.sleep 4000,
       ProbeEvent.send] ∧
    probeResult cancelledCtxEnv = ProbeResult.Inaccessible :=
  C4_cancelled_context_behavior cancelledCtxEnv rfl (by decide)

/-- Claim C5: after each failed attempt with attempts remaining, the probe
sleeps `initialBackoff * 2 ^ attemptIndex` before the next attempt — 1s
before attempt 2 and 2s before attempt 3 — and no schedule ever starts a
4th attempt (every trace has at most `maxRetries` attempts). -/
theorem C5_backoff_schedule (env : UrlEnv) (hreq : env.reqOk = true)
    (hfail : ∀ i, i < maxRetries → attemptFails env i = true) :
    linkAccessibilityChecker env =
      [ProbeEvent.attempt 1, ProbeEvent.sleep (initialBackoff * 2 ^ 0),
       ProbeEvent.attempt 2, ProbeEvent.sleep (initialBackoff * 2 ^ 1),
       ProbeEvent.attempt 3, ProbeEvent.sleep (initialBackoff * 2 ^ 2),
       ProbeEvent.send] ∧
    ∀ env2 : UrlEnv, attemptCount (linkAccessibilityChecker env2) ≤ maxRetries := by
  refine ⟨?_, fun env2 => attemptCount_checkerLoop_le env2 maxRetries 0 initialBackoff⟩
  rw [checker_allFail_trace env hreq hfail]
  decide

/-- Witness for C5 at a URL refusing every connection. -/
theorem C5_backoff_schedule_witness :
    linkAccessibilityChecker connectionRefusedEnv =
      [ProbeEvent.attempt 1, ProbeEvent.sleep (initialBackoff * 2 ^ 0),
       ProbeEvent.attempt 2, ProbeEvent.sleep (initialBackoff * 2 ^ 1),
       ProbeEvent.attempt 3, ProbeEvent.sleep (initialBackoff * 2 ^ 2),
       ProbeEvent.send] ∧
    ∀ env2 : UrlEnv, attemptCount (linkAccessibilityChecker env2) ≤ maxRetries :=
  C5_backoff_schedule connectionRefusedEnv rfl (by decide)

/-- Claim C6: an attempt is classified successful exactly when its status
lies in [200, 300); the probe returns on the first success with no further
attempts and no send; a URL failing its first attempt and succeeding on its
second is probed exactly twice (trace: attempt 1, one backoff sleep,
attempt 2), sends nothing, and ends `Accessible`. -/
theorem C6_success_classification (env : UrlEnv) (s : Nat)
    (hreq : env.reqOk = true) (h0 : attemptFails env 0 = true)
    (h1 : env.outcome 1 = HttpOutcome.response s) (hs : 200 ≤ s ∧ s < 300) :
    (linkAccessibilityChecker env =
        [ProbeEvent.attempt 1, ProbeEvent.sleep initialBackoff, ProbeEvent.attempt 2] ∧
      sendCount (linkAccessibilityChecker env) = 0 ∧
      probeResult env = ProbeResult.Accessible) ∧
    ∀ c : Nat,
      (probeResult { reqOk := true, outcome := fun _ => HttpOutcome.response c } =
          ProbeResult.Accessible ↔ 200 ≤ c ∧ c < 300) := by
  have ht : linkAccessibilityChecker env =
      [ProbeEvent.attempt 1, ProbeEvent.sleep initialBackoff, ProbeEvent.attempt 2] := by
    show checkerLoop env 3 0 initialBackoff = _
    rw [checkerLoop_step_fail env 2 0 initialBackoff hreq h0,
        checkerLoop_step_success env 1 1 (initialBackoff * 2) s hreq h1 hs]
  have hp : probeResult env = ProbeResult.Accessible := by
    show probeLoop env 3 0 = _
    rw [probeLoop_step_fail env 2 0 hreq h0]
    simp [probeLoop, hreq, h1, hs]
  refine ⟨⟨ht, by rw [ht]; rfl, hp⟩, ?_⟩
  intro c
  by_cases hc : 200 ≤ c ∧ c < 300
  · simp [probeResult, probeLoop, hc]
  · simp [probeResult, probeLoop, hc]

/-- Witness for C6 at a URL failing once with 500 and then answering 200. -/
theorem C6_success_classification_witness :
    (linkAccessibilityChecker failThenOkEnv =
        [ProbeEvent.attempt 1, ProbeEvent.sleep initialBackoff, ProbeEvent.attempt 2] ∧
      sendCount (linkAccessibilityChecker failThenOkEnv) = 0 ∧
      probeResult failThenOkEnv = ProbeResult.Accessible) ∧
    ∀ c : Nat,
      (probeResult { reqOk := true, outcome := fun _ => HttpOutcome.response c } =
          ProbeResult.Accessible ↔ 200 ≤ c ∧ c < 300) :=
  C6_success_classification failThenOkEnv 200 rfl (by decide) rfl (by decide)

/-- Claim C7: a URL for which request construction fails terminates as
`Inaccessible` within its first loop iteration: the trace is a single
attempt followed by one send into the failure channel, with no retries
and no backoff sleep. -/
theorem C7_malformed_url (env : UrlEnv) (hreq : env.reqOk = false) :
    linkAccessibilityChecker env = [ProbeEvent.attempt 1, ProbeEvent.send] ∧
    attemptCount (linkAccessibilityChecker env) = 1 ∧
    sleepCount (linkAccessibilityChecker env) = 0 ∧
    sendCount (linkAccessibilityChecker env) = 1 := by
  have ht : linkAccessibilityChecker env = [ProbeEvent.attempt 1, ProbeEvent.send] :=
    checkerLoop_step_reqFail env 2 0 initialBackoff hreq
  refine ⟨ht, ?_, ?_, ?_⟩ <;> rw [ht] <;> rfl

/-- Witness for C7 at the malformed-URL environment. -/
theorem C7_malformed_url_witness :
    linkAccessibilityChecker malformedUrlEnv = [ProbeEvent.attempt 1, ProbeEvent.send] ∧
    attemptCount (linkAccessibilityChecker malformedUrlEnv) = 1 ∧
    sleepCount (linkAccessibilityChecker malformedUrlEnv) = 0 ∧
    sendCount (linkAccessibilityChecker malformedUrlEnv) = 1 :=
  C7_malformed_url malformedUrlEnv rfl

/-- Claim C8: when the combined link sequence is empty,
`validateLinkAccessibility` returns an empty FailureSet and a nil error
immediately, and neither revision spawns any worker or goroutine. -/
theorem C8_empty_linkset (envOf : String → UrlEnv) (analysis : LinkAnalysis)
    (h : pageLinks analysis = []) :
    validateLinkAccessibility envOf analysis = ([], none) ∧
    goroutinesSpawned analysis = 0 ∧ workersSpawnedPool analysis = 0 := by
  simp [validateLinkAccessibility, goroutinesSpawned, workersSpawnedPool, h]

/-- Witness for C8 at the empty LinkSet. -/
theorem C8_empty_linkset_witness :
    validateLinkAccessibility (fun _ => alwaysOkEnv)
        { InternalLinks := [], ExternalLinks := [] } = ([], none) ∧
    goroutinesSpawned { InternalLinks := [], ExternalLinks := [] } = 0 ∧
    workersSpawnedPool { InternalLinks := [], ExternalLinks := [] } = 0 :=
  C8_empty_linkset (fun _ => alwaysOkEnv) { InternalLinks := [], ExternalLinks := [] } rfl

/-- Claim C9: the failure channel's capacity equals the total link count;
each probe sends at most one URL into it; the total number of entries ever
sent (hence drained) never exceeds that capacity, so no send blocks; and
the drained FailureSet contains exactly the multiset of URLs the probes
sent — nothing lost, nothing duplicated. -/
theorem C9_failure_channel (envOf : String → UrlEnv) (analysis : LinkAnalysis) :
    inaccessibleChanCapacity analysis = (pageLinks analysis).length ∧
    (∀ env : UrlEnv, sendCount (linkAccessibilityChecker env) ≤ 1) ∧
    (validateLinkAccessibility envOf analysis).1.length ≤
      inaccessibleChanCapacity analysis ∧
    ∀ url, (validateLinkAccessibility envOf analysis).1.count url =
      sentCount envOf (pageLinks analysis) url := by
  refine ⟨rfl,
    fun env => sendCount_checkerLoop_le_one env maxRetries 0 initialBackoff, ?_, ?_⟩
  · cases hl : pageLinks analysis with
    | nil => simp [validateLinkAccessibility, hl, inaccessibleChanCapacity]
    | cons a as =>
        simp only [validateLinkAccessibility, hl, List.isEmpty_cons, if_false,
          Bool.false_eq_true, inaccessibleChanCapacity]
        rw [channelContents_eq_filter]
        exact List.length_filter_le _ _
  · intro url
    cases hl : pageLinks analysis with
    | nil => simp [validateLinkAccessibility, hl, sentCount]
    | cons a as =>
        simp only [validateLinkAccessibility, hl, List.isEmpty_cons, if_false,
          Bool.false_eq_true]
        exact count_channelContents envOf (a :: as) url

/-- Claim C10 (the code slip it flags): after three attempts that all
return HTTP 500 with no transport error, `loadWebPage` of network.go falls
out of its loop with `err == nil` and returns the pair (nil response, nil
error); the worker-pool revision of the same function instead returns its
explicit access-denied error there, and a final transport error does yield
a non-nil error in both. -/
theorem C10_loadWebPage_nil_nil :
    loadWebPage (fun _ => HttpOutcome.response 500) = (none, none) ∧
    loadWebPagePool (fun _ => HttpOutcome.response 500) =
      (none, some FetchError.accessDenied) ∧
    loadWebPage (fun _ => HttpOutcome.transportError) =
      (none, some FetchError.transport) := by decide

end WebAnalyzer
